import Mathlib

/-!
Shallow embedding of src/PokeAlarm/LocationServices/GMaps.py, the rate-limited
caching client for the remote geolocation service, together with theorems
checking the specification claims about it.

Conventions of the embedding:
  - Python floats are exact rationals; wall-clock time is a rational number of
    seconds (for the rate window) or of days (for cache expiration).
  - JSON bodies are typed records: the top-level status string plus the
    operation-specific array (results or rows); optional dictionary keys are
    Option fields, and a missing key defaulted with dict.get is Option.getD.
  - Exceptions are an explicit error type threaded through Except; a raised
    exception is a returned Except.error value.
  - The external cache collaborator and the Unknown sentinel module are not
    under src, so they are modelled from the spec at their interface.
-/

namespace PokeAlarm

namespace Unknown

/-- Modelled from the spec: the unknown-value sentinel system (spec section 6)
is an external collaborator whose module is not under src; it offers three
distinct severity tiers, where EMPTY is the deliberately blank tier. -/
def EMPTY : String := ""

/-- Modelled from the spec: the SMALL severity tier, a minor-omission
placeholder, distinct from EMPTY and REGULAR. -/
def SMALL : String := "???"

/-- Modelled from the spec: the REGULAR severity tier, the standard
placeholder for an unresolved field. -/
def REGULAR : String := "unknown"

end Unknown

namespace GMaps

/-- GMaps.TRAVEL_MODES: available travel modes for Distance Matrix calls. -/
def TRAVEL_MODES : List String := ["walking", "biking", "driving", "transit"]

/-- A parsed JSON response body: the top-level status field plus the
operation-specific remaining content (the results or rows array). -/
structure GBody (α : Type) where
  status : String
  content : α
  deriving DecidableEq

/-- Python exceptions that cross the boundaries of the GMaps.py functions. -/
inductive PyExc (α : Type) where
  | httpStatusError (code : ℕ)
  | timeoutErr
  | userWarning (msg : String)
  | valueErr (msg : String)
  | unexpectedStatus (body : GBody α)
  | typeErr (msg : String)
  | attributeErr (msg : String)
  deriving DecidableEq

/-- Outcome of the underlying HTTPS GET (session.get in _make_request): a
successful HTTP status with a parsed JSON body, a non-ok HTTP status
(request.ok is false, raise_for_status fires), or a transport timeout. -/
inductive HttpOutcome (α : Type) where
  | success (body : GBody α)
  | failure (code : ℕ) (body : GBody α)
  | timedOut
  deriving DecidableEq

/-- GMaps._make_request, value behaviour (GMaps.py lines 82-123): a non-ok
HTTP status raises HTTPError, a transport timeout raises Timeout, and for an
ok status the JSON status field is classified three ways: OK or ZERO_RESULTS
returns the body, OVER_QUERY_LIMIT raises UserWarning, anything else raises
ValueError carrying the full body. The rate-limit window manipulation at the
head of the function affects only timing and is modelled separately below by
rlDispatch, rlAppend and runRateWindow. -/
def make_request {α : Type} (out : HttpOutcome α) : Except (PyExc α) (GBody α) :=
  match out with
  | .timedOut => .error .timeoutErr
  | .failure code _ => .error (.httpStatusError code)
  | .success body =>
    if body.status = "OK" ∨ body.status = "ZERO_RESULTS" then
      .ok body
    else if body.status = "OVER_QUERY_LIMIT" then
      .error (.userWarning "API Quota exceeded.")
    else
      .error (.unexpectedStatus body)

/-- The shared except-ladder of geocode, reverse_geocode and distance_matrix
(for example GMaps.py lines 147-161): the HTTPError and Timeout handlers
evaluate e.message inside their log call, and that attribute does not exist on
Python 3 exception objects, so those two handlers raise AttributeError instead
of swallowing the failure; the UserWarning handler and the generic Exception
handler only log and fall through to the degraded return value. -/
def handleOpExc {α β : Type} (e : PyExc α) (degraded : β) : Except (PyExc α) β :=
  match e with
  | .httpStatusError _ => .error (.attributeErr "HTTPError object has no attribute message")
  | .timeoutErr => .error (.attributeErr "Timeout object has no attribute message")
  | _ => .ok degraded

/-- Floor of an exact rational, computed from its reduced fraction so that it
evaluates by kernel reduction. -/
def ratFloor (q : ℚ) : ℤ := q.num / (q.den : ℤ)

/-- Python round: round half to even, on an exact rational. -/
def pyRound (q : ℚ) : ℤ :=
  if q - ratFloor q < 1/2 then ratFloor q
  else if 1/2 < q - ratFloor q then ratFloor q + 1
  else if ratFloor q % 2 = 0 then ratFloor q else ratFloor q + 1

/-- calendar.isleap from the Python standard library. -/
def isleap (y : ℕ) : Bool :=
  y % 4 == 0 && (y % 100 != 0 || y % 400 == 0)

/-- Second component of calendar.monthrange: the number of days in the given
month of the given year. -/
def monthrange_days (year month : ℕ) : ℕ :=
  if month = 2 then (if isleap year then 29 else 28)
  else if month = 4 ∨ month = 6 ∨ month = 9 ∨ month = 11 then 30
  else 31

/-- GMaps.expiration (GMaps.py lines 49-53). Time is a rational number of
days; now is the current instant, (year, month) are its calendar components,
max_fuzz_days is the configured cache_fuzz_days and u is the value drawn by
random.random(). -/
def expiration (max_fuzz_days : ℕ) (now : ℚ) (year month : ℕ) (u : ℚ) : ℚ :=
  let month_days := monthrange_days year month
  let fuzz_days := pyRound ((max_fuzz_days : ℚ) * u)
  now + ((month_days : ℚ) + (fuzz_days : ℚ))

/-- Left-pad a digit string with zeros up to the given width. -/
def padZeros (s : String) (n : ℕ) : String :=
  String.mk (List.replicate (n - s.length) '0') ++ s

/-- Python percent-.5f formatting of an exact rational: the value scaled by
100000 and rounded to an integer, printed with five digits after the point. -/
def fmt5 (q : ℚ) : String :=
  let scaled := pyRound (q * 100000)
  let n := scaled.natAbs
  (if q < 0 then "-" else "")
    ++ toString (n / 100000) ++ "." ++ padZeros (toString (n % 100000)) 5

/-- The 5-decimal cache and memo key for a coordinate pair, as built by
reverse_geocode and distance_matrix. -/
def fmtLatLng (p : ℚ × ℚ) : String := fmt5 p.1 ++ "," ++ fmt5 p.2

/-- One results entry field results.geometry.location of the geocode service. -/
structure Location where
  lat : Option ℚ
  lng : Option ℚ
  deriving DecidableEq

/-- One results entry field results.geometry of the geocode service. -/
structure Geometry where
  location : Option Location
  deriving DecidableEq

/-- One entry of a results address_components array. -/
structure AddrComp where
  types : List String
  short_name : String
  deriving DecidableEq

/-- One entry of the results array returned by the geocode service; both keys
are optional, matching the dict.get accesses in the source. -/
structure GeoRes where
  geometry : Option Geometry
  address_components : Option (List AddrComp)
  deriving DecidableEq

/-- The empty dict that results access chains fall back to. -/
def emptyGeoRes : GeoRes := ⟨none, none⟩

/-- The access chain of geocode (GMaps.py lines 139-143): results defaulted to
the empty list, then element 0 or the empty dict, then geometry and location
each defaulted to the empty dict. -/
def locationOf (body : GBody (List GeoRes)) : Location :=
  ((body.content.headD emptyGeoRes).geometry.getD ⟨none⟩).location.getD ⟨none, none⟩

/-- The DTS dictionary built by reverse_geocode, as a record of its fixed keys. -/
structure AddressDetails where
  street_num : String
  street : String
  address : String
  address_eu : String
  postal : String
  neighborhood : String
  sublocality : String
  city : String
  county : String
  state : String
  country : String
  deriving DecidableEq

/-- GMaps._reverse_geocode_defaults (GMaps.py lines 163-175): the class-level
template copied as the seed dts on every cache miss. In the source street_num
is Unknown.SMALL and street is Unknown.REGULAR. -/
def reverse_geocode_defaults : AddressDetails :=
  { street_num := Unknown.SMALL
    street := Unknown.REGULAR
    address := Unknown.REGULAR
    address_eu := Unknown.REGULAR
    postal := Unknown.REGULAR
    neighborhood := Unknown.REGULAR
    sublocality := Unknown.REGULAR
    city := Unknown.REGULAR
    county := Unknown.REGULAR
    state := Unknown.REGULAR
    country := Unknown.REGULAR }

/-- Modelled from the spec: the external cache collaborator (spec section 6)
at its interface, get(key) returning value-or-absent and put(key, value,
expiresAt); embedded as an association list from key to (value, expiration),
newest entry first. This is the geocode cache, keyed by lowercased address. -/
abbrev GeoCache := List (String × ((ℚ × ℚ) × ℚ))

/-- Modelled from the spec: the external cache collaborator for
reverse_geocode, keyed by the 5-decimal coordinate string. -/
abbrev RevCache := List (String × (AddressDetails × ℚ))

/-- GMaps.geocode (GMaps.py lines 126-161). The remote interaction is
abstracted by the HttpOutcome argument; max_fuzz_days, now, year, month and u
feed expiration for the cache write. Returns the Python outcome (normal
return of the coordinate option, or a raised exception) together with the
cache state after the call. -/
def geocode (address language : String) (cache : GeoCache)
    (out : HttpOutcome (List GeoRes))
    (max_fuzz_days : ℕ) (now : ℚ) (year month : ℕ) (u : ℚ) :
    Except (PyExc (List GeoRes)) (Option (ℚ × ℚ)) × GeoCache :=
  let address := address.toLower
  match List.lookup address cache with
  | some (latlng, _) => (.ok (some latlng), cache)
  | none =>
    match make_request out with
    | .error e => (handleOpExc e none, cache)
    | .ok body =>
      let loc := locationOf body
      match loc.lat, loc.lng with
      | some la, some ln =>
        (.ok (some (la, ln)),
          (address, ((la, ln), expiration max_fuzz_days now year month u)) :: cache)
      | _, _ => (.ok none, cache)

/-- Python dict get with default over an association list whose most recent
insertion sits at the head. -/
def dget (d : List (String × String)) (k dflt : String) : String :=
  (List.lookup k d).getD dflt

/-- The nested loop of reverse_geocode flattening address_components: for
item in components, for category in item.types, details stores short_name
under category; a later write wins because it ends up nearer the head. -/
def flattenComponents (comps : List AddrComp) : List (String × String) :=
  comps.foldl (fun d item =>
    item.types.foldl (fun d2 t => (t, item.short_name) :: d2) d) []

/-- The access chain of reverse_geocode (GMaps.py lines 190-193): results
defaulted to the empty list, element 0 or the empty dict, then the
address_components key fetched with a bare dict.get (no default). -/
def componentsOf (body : GBody (List GeoRes)) : Option (List AddrComp) :=
  (body.content.headD emptyGeoRes).address_components

/-- GMaps.reverse_geocode (GMaps.py lines 177-233). On a miss the seed dts is
a copy of reverse_geocode_defaults; when address_components is absent the for
loop iterates None and raises TypeError, which the generic Exception handler
converts into returning the current dts; on full population the composed
address fields are built from the street fields and the populated dts is
written to the cache with a fuzzed expiration. -/
def reverse_geocode (latlng : ℚ × ℚ) (language : String) (cache : RevCache)
    (out : HttpOutcome (List GeoRes))
    (max_fuzz_days : ℕ) (now : ℚ) (year month : ℕ) (u : ℚ) :
    Except (PyExc (List GeoRes)) AddressDetails × RevCache :=
  let key := fmtLatLng latlng
  match List.lookup key cache with
  | some (dts, _) => (.ok dts, cache)
  | none =>
    let dts := reverse_geocode_defaults
    match make_request out with
    | .error e => (handleOpExc e dts, cache)
    | .ok body =>
      match componentsOf body with
      | none => (handleOpExc (.typeErr "NoneType object is not iterable") dts, cache)
      | some comps =>
        let details := flattenComponents comps
        let street_num := dget details "street_number" Unknown.EMPTY
        let street := dget details "route" Unknown.EMPTY
        let dts : AddressDetails :=
          { street_num := street_num
            street := street
            address := street_num ++ " " ++ street
            address_eu := street ++ " " ++ street_num
            postal := dget details "postal_code" Unknown.REGULAR
            neighborhood := dget details "neighborhood" Unknown.REGULAR
            sublocality := dget details "sublocality" Unknown.REGULAR
            city := dget details "locality" (dget details "postal_town" Unknown.REGULAR)
            county := dget details "administrative_area_level_2" Unknown.REGULAR
            state := dget details "administrative_area_level_1" Unknown.REGULAR
            country := dget details "country" Unknown.REGULAR }
        (.ok dts, (key, (dts, expiration max_fuzz_days now year month u)) :: cache)

/-- The text-bearing dict inside a distancematrix element, with the text key
optional to match the dict.get access. -/
structure TextDict where
  text : Option String
  deriving DecidableEq

/-- One entry of a distancematrix rows.elements array. -/
structure DMElem where
  distance : Option TextDict
  duration : Option TextDict
  deriving DecidableEq

/-- One entry of the distancematrix rows array. -/
structure DMRow where
  elements : List DMElem
  deriving DecidableEq

/-- The in-process distance-matrix memo _dm_hist: a dict from string keys to
travel-estimate dicts. -/
abbrev Memo := List (String × List (String × String))

/-- GMaps initialisation of the memo (GMaps.py line 47): one empty dict per
travel mode name. -/
def dm_hist_init : Memo := TRAVEL_MODES.map (fun m => (m, []))

/-- GMaps.distance_matrix (GMaps.py lines 235-287). The third component of
the result records whether a remote request was dispatched. NOTE: the source
never writes the computed dts into _dm_hist, so the memo is returned exactly
as received on every path. -/
def distance_matrix (mode : String) (origin dest : ℚ × ℚ) (lang units : String)
    (memo : Memo) (out : HttpOutcome (List DMRow)) :
    Except (PyExc (List DMRow)) (List (String × String)) × Memo × Bool :=
  if mode ∉ TRAVEL_MODES then
    (.error (.valueErr ("DM does not support mode " ++ mode ++ ".")), memo, false)
  else
    let key := fmtLatLng origin ++ ":" ++ fmtLatLng dest
    match List.lookup key memo with
    | some v => (.ok v, memo, false)
    | none =>
      let dist_key := mode ++ "_distance"
      let dur_key := mode ++ "_duration"
      let dts := [(dist_key, Unknown.REGULAR), (dur_key, Unknown.REGULAR)]
      match make_request out with
      | .error e => (handleOpExc e dts, memo, true)
      | .ok body =>
        let elem := (body.content.headD ⟨[]⟩).elements.headD ⟨none, none⟩
        (.ok [(dist_key, (elem.distance.getD ⟨none⟩).text.getD Unknown.REGULAR),
              (dur_key, (elem.duration.getD ⟨none⟩).text.getD Unknown.REGULAR)],
          memo, true)

/-- GMaps._queries_per_second: the per-second quota shared by all operations. -/
def queries_per_second : ℕ := 50

/-- Timing view of the rate-limit block at the head of _make_request
(GMaps.py lines 84-101): given the current window and the arrival instant of
a call, its dispatch instant. When the window holds queries_per_second stamps
and less than one second has elapsed since the oldest one, the call sleeps
off the difference. Time is a rational number of seconds; sleep is modelled
as advancing exactly by the requested amount, and any extra scheduler delay
is absorbed into the next arrival gap. -/
def rlDispatch (w : List ℚ) (arrival : ℚ) : ℚ :=
  if w.length = queries_per_second ∧ arrival - w.headD 0 < 1 then w.headD 0 + 1
  else arrival

/-- The append self window append time.time() on a deque with maxlen
queries_per_second: appending to a full deque evicts the oldest stamp. -/
def rlAppend (w : List ℚ) (t : ℚ) : List ℚ :=
  (if w.length = queries_per_second then w.tail else w) ++ [t]

/-- A sequential run of _make_request dispatches: ds lists the gaps between
the previous dispatch and the next arrival; the result lists the dispatch
instants, which are also the stamps recorded in the window. -/
def runRateWindow (w : List ℚ) (clock : ℚ) : List ℚ → List ℚ
  | [] => []
  | d :: ds =>
    let t := rlDispatch w (clock + d)
    t :: runRateWindow (rlAppend w t) t ds

/-! Theorems checking the specification claims. -/

/-- C3: for every JSON body received with a successful HTTP status, a status
field of OK or ZERO_RESULTS returns the body, OVER_QUERY_LIMIT fails with the
quota-exceeded UserWarning, and any other status fails with the unexpected
response error carrying the full body. -/
theorem make_request_status_classification {α : Type} (b : GBody α) :
    ((b.status = "OK" ∨ b.status = "ZERO_RESULTS") →
      make_request (.success b) = .ok b) ∧
    (b.status = "OVER_QUERY_LIMIT" →
      make_request (.success b) = .error (.userWarning "API Quota exceeded.")) ∧
    (b.status ≠ "OK" → b.status ≠ "ZERO_RESULTS" → b.status ≠ "OVER_QUERY_LIMIT" →
      make_request (.success b) = .error (.unexpectedStatus b)) := by
  refine ⟨?_, ?_, ?_⟩
  · intro h
    rcases h with h | h <;> simp [make_request, h]
  · intro h
    simp [make_request, h]
  · intro h1 h2 h3
    simp [make_request, h1, h2, h3]

/-- C3 witness: the three classification branches at concrete bodies. -/
theorem make_request_status_classification_witness :
    make_request (.success (⟨"ZERO_RESULTS", 0⟩ : GBody ℕ)) = .ok ⟨"ZERO_RESULTS", 0⟩ ∧
    make_request (.success (⟨"OVER_QUERY_LIMIT", 0⟩ : GBody ℕ))
      = .error (.userWarning "API Quota exceeded.") ∧
    make_request (.success (⟨"REQUEST_DENIED", 0⟩ : GBody ℕ))
      = .error (.unexpectedStatus ⟨"REQUEST_DENIED", 0⟩) :=
  ⟨(make_request_status_classification _).1 (Or.inr rfl),
   (make_request_status_classification _).2.1 rfl,
   (make_request_status_classification _).2.2 (by decide) (by decide) (by decide)⟩

/-- C5: a travel mode outside TRAVEL_MODES makes distance_matrix raise
ValueError at once; the error reaches the caller, no remote request is
dispatched, and the memo is untouched (the raise precedes the memo lookup in
the source). -/
theorem distance_matrix_invalid_mode (mode : String) (h : mode ∉ TRAVEL_MODES)
    (origin dest : ℚ × ℚ) (lang units : String) (memo : Memo)
    (out : HttpOutcome (List DMRow)) :
    distance_matrix mode origin dest lang units memo out
      = (.error (.valueErr ("DM does not support mode " ++ mode ++ ".")),
         memo, false) := by
  simp [distance_matrix, h]

/-- C5 witness: a concrete unsupported mode. -/
theorem distance_matrix_invalid_mode_witness :
    "flying" ∉ TRAVEL_MODES ∧
    distance_matrix "flying" (0, 0) (1, 1) "en" "metric" dm_hist_init .timedOut
      = (.error (.valueErr ("DM does not support mode " ++ "flying" ++ ".")),
         dm_hist_init, false) :=
  ⟨by decide,
   distance_matrix_invalid_mode "flying" (by decide) (0, 0) (1, 1) "en" "metric"
     dm_hist_init .timedOut⟩

/-- ratFloor agrees with the mathematical floor. -/
theorem ratFloor_eq_floor (q : ℚ) : ratFloor q = ⌊q⌋ := Rat.floor_def.symm

/-- pyRound never goes below zero on a nonnegative argument. -/
theorem pyRound_nonneg (q : ℚ) (hq : 0 ≤ q) : 0 ≤ pyRound q := by
  have hf : (0 : ℤ) ≤ ratFloor q := by
    rw [ratFloor_eq_floor]
    exact Int.floor_nonneg.mpr hq
  unfold pyRound
  split_ifs <;> omega

/-- Modelled from the spec: the expiration formula exactly as worded in spec
section 4.5, for comparison with the source definition. -/
def spec_expiration (max_fuzz_days : ℕ) (now : ℚ) (year month : ℕ) (u : ℚ) : ℚ :=
  now + ((monthrange_days year month : ℚ) + (pyRound ((max_fuzz_days : ℚ) * u) : ℚ))

/-- C9: for any fuzz bound and any draw u in the unit interval, expiration
equals now plus days-in-current-month plus round(maxFuzzDays times u) days,
and in particular is at least now plus the days in the current month. -/
theorem expiration_formula (max_fuzz_days : ℕ) (now : ℚ) (year month : ℕ) (u : ℚ)
    (hu0 : 0 ≤ u) (hu1 : u ≤ 1) :
    expiration max_fuzz_days now year month u
      = spec_expiration max_fuzz_days now year month u ∧
    now + (monthrange_days year month : ℚ)
      ≤ expiration max_fuzz_days now year month u := by
  constructor
  · rfl
  · have h1 : (0 : ℚ) ≤ (max_fuzz_days : ℚ) * u :=
      mul_nonneg (Nat.cast_nonneg _) hu0
    have h2 : (0 : ℚ) ≤ (pyRound ((max_fuzz_days : ℚ) * u) : ℚ) := by
      exact_mod_cast pyRound_nonneg _ h1
    show now + (monthrange_days year month : ℚ)
      ≤ now + ((monthrange_days year month : ℚ) + (pyRound ((max_fuzz_days : ℚ) * u) : ℚ))
    linarith

/-- C9 witness: a concrete draw in February of a leap year. -/
theorem expiration_formula_witness :
    (0 : ℚ) ≤ 1/2 ∧ (1 : ℚ)/2 ≤ 1 ∧
    (expiration 3 0 2016 2 (1/2) = spec_expiration 3 0 2016 2 (1/2) ∧
      (0 : ℚ) + (monthrange_days 2016 2 : ℚ) ≤ expiration 3 0 2016 2 (1/2)) :=
  ⟨by norm_num, by norm_num,
   expiration_formula 3 0 2016 2 (1/2) (by norm_num) (by norm_num)⟩

/-- C10: on a reverse_geocode cache miss, a ZERO_RESULTS body (empty results,
hence no address_components) makes the component loop raise TypeError into
the generic handler: the pristine seed defaults come back and nothing is
written to the external cache. -/
theorem reverse_geocode_zero_results_defaults (latlng : ℚ × ℚ) (language : String)
    (cache : RevCache) (max_fuzz_days : ℕ) (now : ℚ) (year month : ℕ) (u : ℚ)
    (hmiss : List.lookup (fmtLatLng latlng) cache = none) :
    reverse_geocode latlng language cache (.success ⟨"ZERO_RESULTS", []⟩)
        max_fuzz_days now year month u
      = (.ok reverse_geocode_defaults, cache) := by
  simp [reverse_geocode, hmiss, make_request, componentsOf, emptyGeoRes, handleOpExc]

/-- C10 witness: a concrete coordinate against an empty cache. -/
theorem reverse_geocode_zero_results_defaults_witness :
    List.lookup (fmtLatLng (5, 6)) ([] : RevCache) = none ∧
    reverse_geocode (5, 6) "en" [] (.success ⟨"ZERO_RESULTS", []⟩) 3 0 2016 1 0
      = (.ok reverse_geocode_defaults, []) :=
  ⟨rfl, reverse_geocode_zero_results_defaults (5, 6) "en" [] 3 0 2016 1 0 rfl⟩

/-- C8: on a geocode cache miss whose remote body lacks lat or lng anywhere
along the extraction chain, the call returns none without raising and the
cache keeps its value; the cache write with the fuzzed expiration happens
exactly when both lat and lng are extracted. -/
theorem geocode_cache_write_iff_latlng (address language : String) (cache : GeoCache)
    (out : HttpOutcome (List GeoRes)) (b : GBody (List GeoRes))
    (max_fuzz_days : ℕ) (now : ℚ) (year month : ℕ) (u : ℚ)
    (hmiss : List.lookup address.toLower cache = none)
    (hb : make_request out = .ok b) :
    (((locationOf b).lat = none ∨ (locationOf b).lng = none) →
      geocode address language cache out max_fuzz_days now year month u
        = (.ok none, cache)) ∧
    (∀ la ln, (locationOf b).lat = some la → (locationOf b).lng = some ln →
      geocode address language cache out max_fuzz_days now year month u
        = (.ok (some (la, ln)),
           (address.toLower, ((la, ln), expiration max_fuzz_days now year month u))
             :: cache)) := by
  constructor
  · intro h
    rcases h with h | h
    · cases hlng : (locationOf b).lng <;> simp [geocode, hmiss, hb, h, hlng]
    · cases hlat : (locationOf b).lat <;> simp [geocode, hmiss, hb, h, hlat]
  · intro la ln hla hln
    simp [geocode, hmiss, hb, hla, hln]

/-- C8 witness: a ZERO_RESULTS body yields no coordinate and leaves the empty
cache empty. -/
theorem geocode_cache_write_iff_latlng_witness :
    List.lookup ("x town".toLower) ([] : GeoCache) = none ∧
    make_request (.success (⟨"ZERO_RESULTS", []⟩ : GBody (List GeoRes)))
      = .ok ⟨"ZERO_RESULTS", []⟩ ∧
    ((locationOf (⟨"ZERO_RESULTS", []⟩ : GBody (List GeoRes))).lat = none) ∧
    geocode "x town" "en" [] (.success ⟨"ZERO_RESULTS", []⟩) 3 0 2016 1 0
      = (.ok none, []) :=
  ⟨rfl, rfl, rfl,
   (geocode_cache_write_iff_latlng "x town" "en" [] (.success ⟨"ZERO_RESULTS", []⟩)
       ⟨"ZERO_RESULTS", []⟩ 3 0 2016 1 0 rfl rfl).1 (Or.inl rfl)⟩

/-- C6 counterexample: a cache-miss reverse_geocode whose remote request
fails with OVER_QUERY_LIMIT returns the seeded defaults, and their address
field is not the composition of their street_num and street fields, so the
claimed invariant fails on the remote-failure path. -/
theorem reverse_geocode_address_invariant_fails :
    (reverse_geocode (37, -122) "en" []
        (.success ⟨"OVER_QUERY_LIMIT", []⟩) 3 0 2016 1 0).1
      = .ok reverse_geocode_defaults ∧
    reverse_geocode_defaults.address
      ≠ reverse_geocode_defaults.street_num ++ " " ++ reverse_geocode_defaults.street :=
  ⟨rfl, by decide⟩

/-- C6 amended: on the success path, where the body parses and the component
loop runs to completion, every AddressDetails returned by reverse_geocode
satisfies address equal to street_num-space-street and address_eu equal to
street-space-street_num; on the failure paths the seeded defaults come back
and do not satisfy the composition. -/
theorem reverse_geocode_address_composition (latlng : ℚ × ℚ) (language : String)
    (cache : RevCache) (b : GBody (List GeoRes)) (comps : List AddrComp)
    (max_fuzz_days : ℕ) (now : ℚ) (year month : ℕ) (u : ℚ)
    (hmiss : List.lookup (fmtLatLng latlng) cache = none)
    (hb : make_request (.success b) = .ok b)
    (hcomps : componentsOf b = some comps) :
    ∀ dts, (reverse_geocode latlng language cache (.success b)
        max_fuzz_days now year month u).1 = .ok dts →
      dts.address = dts.street_num ++ " " ++ dts.street ∧
      dts.address_eu = dts.street ++ " " ++ dts.street_num := by
  intro dts h
  simp [reverse_geocode, hmiss, hb, hcomps] at h
  subst h
  exact ⟨rfl, rfl⟩

/-- C6 amended witness: a body with a single route component; the returned
record composes its address fields from the street fields. -/
theorem reverse_geocode_address_composition_witness :
    (reverse_geocode (7, 8) "en" []
        (.success ⟨"OK", [⟨none, some [⟨["route"], "Main St"⟩]⟩]⟩) 3 0 2016 1 0).1
      = .ok { street_num := Unknown.EMPTY
              street := "Main St"
              address := Unknown.EMPTY ++ " " ++ "Main St"
              address_eu := "Main St" ++ " " ++ Unknown.EMPTY
              postal := Unknown.REGULAR
              neighborhood := Unknown.REGULAR
              sublocality := Unknown.REGULAR
              city := Unknown.REGULAR
              county := Unknown.REGULAR
              state := Unknown.REGULAR
              country := Unknown.REGULAR } ∧
    (Unknown.EMPTY ++ " " ++ "Main St" : String)
      = Unknown.EMPTY ++ " " ++ "Main St" ∧
    ("Main St" ++ " " ++ Unknown.EMPTY : String)
      = "Main St" ++ " " ++ Unknown.EMPTY :=
  ⟨rfl,
   (reverse_geocode_address_composition (7, 8) "en" []
      ⟨"OK", [⟨none, some [⟨["route"], "Main St"⟩]⟩]⟩ [⟨["route"], "Main St"⟩]
      3 0 2016 1 0 rfl rfl rfl _ rfl).1,
   (reverse_geocode_address_composition (7, 8) "en" []
      ⟨"OK", [⟨none, some [⟨["route"], "Main St"⟩]⟩]⟩ [⟨["route"], "Main St"⟩]
      3 0 2016 1 0 rfl rfl rfl _ rfl).2⟩

/-- C7 evidence: the seed defaults give street_num the SMALL tier and street
the REGULAR tier, so a remote failure before population returns visible
placeholder sentinels instead of the blank EMPTY tier the documentation
prescribes for these two fields. -/
theorem reverse_geocode_seed_tiers :
    (reverse_geocode (1, 2) "en" []
        (.success ⟨"OVER_QUERY_LIMIT", []⟩) 2 0 2020 6 0).1
      = .ok reverse_geocode_defaults ∧
    reverse_geocode_defaults.street_num = Unknown.SMALL ∧
    reverse_geocode_defaults.street = Unknown.REGULAR ∧
    Unknown.SMALL ≠ Unknown.EMPTY ∧ Unknown.REGULAR ≠ Unknown.EMPTY :=
  ⟨rfl, rfl, rfl, by decide, by decide⟩

/-- C1 evidence: on HTTP-error and timeout failures each operation raises
AttributeError out of its own except handler (the e.message access), so the
failure escapes to the caller; the quota failure does degrade to the default
value as claimed. -/
theorem remote_failures_raise_attribute_error :
    (geocode "pallet town" "en" [] (.failure 404 ⟨"", []⟩) 3 0 2016 1 0).1
      = .error (.attributeErr "HTTPError object has no attribute message") ∧
    (geocode "pallet town" "en" [] .timedOut 3 0 2016 1 0).1
      = .error (.attributeErr "Timeout object has no attribute message") ∧
    (reverse_geocode (3, 4) "en" [] .timedOut 3 0 2016 1 0).1
      = .error (.attributeErr "Timeout object has no attribute message") ∧
    (distance_matrix "driving" (3, 4) (5, 6) "en" "metric" dm_hist_init
        (.failure 500 ⟨"", []⟩)).1
      = .error (.attributeErr "HTTPError object has no attribute message") ∧
    (geocode "pallet town" "en" [] (.success ⟨"OVER_QUERY_LIMIT", []⟩) 3 0 2016 1 0).1
      = .ok none := by
  refine ⟨?_, ?_, ?_, ?_, ?_⟩ <;> with_unfolding_all rfl

/-- C2 evidence: the source never stores the computed estimate into _dm_hist,
so after a successful driving call the memo is unchanged, and the following
transit call for the same coordinates dispatches a second remote request and
recomputes its own estimate instead of returning a stored entry. -/
theorem distance_matrix_memo_never_written :
    (distance_matrix "driving" (37, -122) ((371 : ℚ)/10, -(1221 : ℚ)/10) "en" "metric"
        dm_hist_init
        (.success ⟨"OK", [⟨[⟨some ⟨some "5.2 km"⟩, some ⟨some "9 mins"⟩⟩]⟩]⟩)).2.1
      = dm_hist_init ∧
    (distance_matrix "driving" (37, -122) ((371 : ℚ)/10, -(1221 : ℚ)/10) "en" "metric"
        dm_hist_init
        (.success ⟨"OK", [⟨[⟨some ⟨some "5.2 km"⟩, some ⟨some "9 mins"⟩⟩]⟩]⟩)).1
      = .ok [("driving_distance", "5.2 km"), ("driving_duration", "9 mins")] ∧
    (distance_matrix "transit" (37, -122) ((371 : ℚ)/10, -(1221 : ℚ)/10) "en" "metric"
        dm_hist_init
        (.success ⟨"OK", [⟨[⟨some ⟨some "5.2 km"⟩, some ⟨some "9 mins"⟩⟩]⟩]⟩)).1
      = .ok [("transit_distance", "5.2 km"), ("transit_duration", "9 mins")] ∧
    (distance_matrix "transit" (37, -122) ((371 : ℚ)/10, -(1221 : ℚ)/10) "en" "metric"
        dm_hist_init
        (.success ⟨"OK", [⟨[⟨some ⟨some "5.2 km"⟩, some ⟨some "9 mins"⟩⟩]⟩]⟩)).2.2
      = true := by
  refine ⟨?_, ?_, ?_, ?_⟩ <;> with_unfolding_all rfl

/-- getD at the length of the left part of an append hits the first element
of the right part. -/
theorem getD_append_cons (l : List ℚ) (x : ℚ) (r : List ℚ) :
    (l ++ x :: r).getD l.length 0 = x := by
  induction l with
  | nil => rfl
  | cons a tl ih => simpa using ih

/-- Every dispatch of a run comes at least one second after the dispatch
queries_per_second calls earlier, for any starting window of at most
queries_per_second stamps; the history is the starting window followed by the
dispatches of the run. -/
theorem runRateWindow_spacing_aux (ds : List ℚ) :
    ∀ (w : List ℚ) (clock : ℚ), w.length ≤ queries_per_second →
      ∀ k, k + queries_per_second < (w ++ runRateWindow w clock ds).length →
        (w ++ runRateWindow w clock ds).getD k 0 + 1 ≤
          (w ++ runRateWindow w clock ds).getD (k + queries_per_second) 0 := by
  induction ds with
  | nil =>
    intro w clock hw k hk
    simp [runRateWindow] at hk
    omega
  | cons d rest ih =>
    intro w clock hw k hk
    simp only [runRateWindow] at hk ⊢
    set t := rlDispatch w (clock + d) with ht
    by_cases hfull : w.length = queries_per_second
    · cases w with
      | nil => simp [queries_per_second] at hfull
      | cons h0 tl =>
        have hlen : tl.length + 1 = queries_per_second := by simpa using hfull
        have happ : rlAppend (h0 :: tl) t = tl ++ [t] := by
          unfold rlAppend
          rw [if_pos hfull]
          rfl
        rw [happ] at hk ⊢
        have hIH := ih (tl ++ [t]) t (by simp; omega)
        rw [List.append_assoc] at hIH
        simp only [List.singleton_append] at hIH
        have hstep : h0 + 1 ≤ t := by
          rw [ht]
          unfold rlDispatch
          split_ifs with hc
          · simp
          · push_neg at hc
            have h2 := hc hfull
            simp only [List.headD_cons] at h2 ⊢
            linarith
        match k with
        | 0 =>
          have hidx : 0 + queries_per_second = tl.length + 1 := by omega
          rw [hidx]
          show ((h0 :: tl) ++ t :: runRateWindow (tl ++ [t]) t rest).getD 0 0 + 1
            ≤ ((h0 :: tl) ++ t :: runRateWindow (tl ++ [t]) t rest).getD (tl.length + 1) 0
          rw [List.cons_append, List.getD_cons_zero, List.getD_cons_succ,
            getD_append_cons]
          exact hstep
        | k + 1 =>
          have hidx : k + 1 + queries_per_second = (k + queries_per_second) + 1 := by
            omega
          rw [hidx]
          show ((h0 :: tl) ++ t :: runRateWindow (tl ++ [t]) t rest).getD (k + 1) 0 + 1
            ≤ ((h0 :: tl) ++ t :: runRateWindow (tl ++ [t]) t rest).getD
              ((k + queries_per_second) + 1) 0
          rw [List.cons_append, List.getD_cons_succ, List.getD_cons_succ]
          refine hIH k ?_
          have hk2 : k + 1 + queries_per_second
              < ((h0 :: tl) ++ t :: runRateWindow (tl ++ [t]) t rest).length := hk
          simp only [List.cons_append, List.length_cons, List.length_append] at hk2 ⊢
          omega
    · have happ : rlAppend w t = w ++ [t] := by
        unfold rlAppend
        rw [if_neg hfull]
      rw [happ] at hk ⊢
      have hIH := ih (w ++ [t]) t (by simp; omega)
      rw [List.append_assoc] at hIH
      simp only [List.singleton_append] at hIH
      exact hIH k hk

/-- C4: along any sequential run of _make_request dispatches starting from an
empty window, any dispatch comes at least one second after the dispatch
queries_per_second (50) calls earlier; so at most 50 dispatches fit in any
trailing one-second interval, and in particular the 51st dispatch of a burst
happens no earlier than one second after the 1st. -/
theorem rate_window_sliding_bound (clock : ℚ) (ds : List ℚ) (k : ℕ)
    (hk : k + queries_per_second < (runRateWindow [] clock ds).length) :
    (runRateWindow [] clock ds).getD k 0 + 1 ≤
      (runRateWindow [] clock ds).getD (k + queries_per_second) 0 := by
  have h := runRateWindow_spacing_aux ds [] clock (by simp) k (by simpa using hk)
  simpa using h

/-- C4 witness: a burst of 51 calls arriving together (all well within 900 ms
of the first): the 51st dispatch is at least one second after the 1st. -/
theorem rate_window_sliding_bound_witness :
    0 + queries_per_second < (runRateWindow [] 0 (List.replicate 51 (0 : ℚ))).length ∧
    (runRateWindow [] 0 (List.replicate 51 (0 : ℚ))).getD 0 0 + 1 ≤
      (runRateWindow [] 0 (List.replicate 51 (0 : ℚ))).getD
        (0 + queries_per_second) 0 :=
  ⟨by with_unfolding_all decide,
   rate_window_sliding_bound 0 (List.replicate 51 (0 : ℚ)) 0
     (by with_unfolding_all decide)⟩

end GMaps

end PokeAlarm
